import Mathlib

/-!
Verification development for the movie-search UI component
(`src/pages/Index.tsx`).

The component is a single React function component.  We embed its
behaviourally relevant parts shallowly:

* the component-local state hooks become the fields of `AppState`;
* each data-producing operation (`searchMovies`, `fetchTrendingMovies`,
  `fetchMovieDetails`, `handleMovieClick`) becomes a function from the
  outcome of its (single) network fetch to a list of state-mutation
  effects, folded over an `AppState` with `applyEffs`;
* the `debounce` helper becomes a function from a time-stamped call
  sequence to the sequence of callback executions it produces;
* the render expression choosing between the six list views becomes
  `renderView`;
* the display formatters `formatDate` and `formatRuntime` become
  Lean functions of the same name.
-/

/-- The `Movie` interface of `Index.tsx`.  `vote_average` is a display-only
float in the source and is omitted (no claim touches it); optional fields
become `Option`. -/
structure Movie where
  id : Nat
  title : String
  overview : String
  poster_path : Option String
  release_date : String
  genre_ids : List Nat
  backdrop_path : Option String
  runtime : Option Nat
  original_title : Option String
  original_language : Option String
  deriving Repr, DecidableEq

/-- The detail-endpoint response stored in `movieDetails`: the movie fields
plus `genres` (id/name pairs) and `credits.cast` (names). -/
structure MovieDetails where
  movie : Movie
  genres : List (Nat × String)
  cast : List String
  deriving Repr, DecidableEq

/-- A toast recorded through `useToast`: title, description, and whether the
`variant: "destructive"` flag was passed. -/
structure Toast where
  title : String
  description : String
  destructive : Bool
  deriving Repr, DecidableEq

/-- The component-local state: one field per `useState` hook, plus the list
of toasts recorded so far (the notification channel). -/
structure AppState where
  searchQuery : String
  movies : List Movie
  trendingMovies : List Movie
  loading : Bool
  trendingLoading : Bool
  selectedMovie : Option Movie
  movieDetails : Option MovieDetails
  isDialogOpen : Bool
  toasts : List Toast
  deriving Repr, DecidableEq

/-- Outcome of one `fetch` call: `ok` with the parsed JSON payload
(`response.ok` true), a non-2xx HTTP status, or a thrown network error. -/
inductive FetchOutcome (α : Type) where
  | ok (data : α)
  | httpError (status : Nat)
  | networkError
  deriving Repr, DecidableEq

/-- An outcome on which the `catch` block runs: the guard
`if (!response.ok) throw` fired, or `fetch` itself threw. -/
def FetchOutcome.failed {α : Type} : FetchOutcome α → Prop
  | .ok _ => False
  | .httpError _ => True
  | .networkError => True

instance {α : Type} (o : FetchOutcome α) : Decidable o.failed := by
  cases o <;> simp [FetchOutcome.failed] <;> infer_instance

/-- For the two list endpoints the consumed payload is `data.results` when
it is present and an array, and nothing otherwise. -/
abbrev ListPayload := Option (List Movie)

/-- One state mutation performed by the component: a `setX` call, a toast
record, or the issuing of a network request. -/
inductive Eff where
  | setSearchQuery (q : String)
  | setMovies (l : List Movie)
  | setTrendingMovies (l : List Movie)
  | setLoading (b : Bool)
  | setTrendingLoading (b : Bool)
  | setSelectedMovie (m : Option Movie)
  | setMovieDetails (d : Option MovieDetails)
  | setDialogOpen (b : Bool)
  | addToast (t : Toast)
  | netCall
  deriving Repr, DecidableEq

/-- Interpret one effect on the state.  `netCall` does not change state; it
is recorded so that "no network call is issued" is statable. -/
def applyEff (s : AppState) : Eff → AppState
  | .setSearchQuery q => { s with searchQuery := q }
  | .setMovies l => { s with movies := l }
  | .setTrendingMovies l => { s with trendingMovies := l }
  | .setLoading b => { s with loading := b }
  | .setTrendingLoading b => { s with trendingLoading := b }
  | .setSelectedMovie m => { s with selectedMovie := m }
  | .setMovieDetails d => { s with movieDetails := d }
  | .setDialogOpen b => { s with isDialogOpen := b }
  | .addToast t => { s with toasts := s.toasts ++ [t] }
  | .netCall => s

/-- Interpret a list of effects left to right. -/
def applyEffs (s : AppState) (effs : List Eff) : AppState :=
  effs.foldl applyEff s

/-- The success toast of `searchMovies`. -/
def searchCompleteToast (n : Nat) (query : String) : Toast :=
  ⟨"Search Complete", "Found " ++ toString n ++ " movies for \"" ++ query ++ "\"", false⟩

/-- The empty-result toast of `searchMovies`. -/
def noResultsToast (query : String) : Toast :=
  ⟨"No Results", "No movies found for \"" ++ query ++ "\". Try different spelling or keywords.", false⟩

/-- The failure toast of `searchMovies` (`catch` block). -/
def connectionErrorToast : Toast :=
  ⟨"Connection Error", "Unable to search movies at the moment. Please try again in a few seconds.", true⟩

/-- The failure toast of `fetchTrendingMovies` (`catch` block). -/
def trendingErrorToast : Toast :=
  ⟨"Error", "Failed to load trending movies. Please refresh the page.", true⟩

/-- The failure toast of `fetchMovieDetails` (`catch` block). -/
def detailsErrorToast : Toast :=
  ⟨"Error", "Failed to load movie details. Please try again.", true⟩

/-- Models `String.prototype.trim`: remove whitespace from both ends of the
string. -/
def jsTrim (s : String) : String :=
  String.mk (((s.data.dropWhile Char.isWhitespace).reverse.dropWhile Char.isWhitespace).reverse)

/-- Effects of `searchMovies(query)` in `Index.tsx`, given the outcome of
its fetch.  `!query.trim()` is true exactly when the trimmed query is the
empty string; in that case the function clears `movies` and returns before
touching `loading` or the network.  Otherwise `loading` is raised, the
request issued, the branches on `data.results` / the `catch` block run, and
the `finally` block lowers `loading`. -/
def searchMoviesEffects (query : String) (outcome : FetchOutcome ListPayload) : List Eff :=
  if jsTrim query = "" then
    [.setMovies []]
  else
    .setLoading true ::
    .netCall ::
    (match outcome with
      | .ok (some results) =>
          [.setMovies results, .addToast (searchCompleteToast results.length query)]
      | .ok none =>
          [.setMovies [], .addToast (noResultsToast query)]
      | .httpError _ =>
          [.setMovies [], .addToast connectionErrorToast]
      | .networkError =>
          [.setMovies [], .addToast connectionErrorToast]) ++
    [.setLoading false]

/-- Final state after `searchMovies(query)` runs to completion. -/
def searchMovies (query : String) (outcome : FetchOutcome ListPayload) (s : AppState) : AppState :=
  applyEffs s (searchMoviesEffects query outcome)

/-- Effects of `fetchTrendingMovies()`: raise `trendingLoading`, issue the
request, store `data.results.slice(0, 10)` when `results` is a present
array (nothing otherwise), toast on failure, and lower `trendingLoading` in
the `finally` block. -/
def fetchTrendingMoviesEffects (outcome : FetchOutcome ListPayload) : List Eff :=
  .setTrendingLoading true ::
  .netCall ::
  (match outcome with
    | .ok (some results) => [.setTrendingMovies (results.take 10)]
    | .ok none => []
    | .httpError _ => [.addToast trendingErrorToast]
    | .networkError => [.addToast trendingErrorToast]) ++
  [.setTrendingLoading false]

/-- Final state after `fetchTrendingMovies()` runs to completion. -/
def fetchTrendingMovies (outcome : FetchOutcome ListPayload) (s : AppState) : AppState :=
  applyEffs s (fetchTrendingMoviesEffects outcome)

/-- Effects of `fetchMovieDetails(movieId)`: issue the request, store the
response on success, toast on failure.  There is no loading flag and no
`finally` block. -/
def fetchMovieDetailsEffects (movieId : Nat) (outcome : FetchOutcome MovieDetails) : List Eff :=
  .netCall ::
  (match outcome with
    | .ok data => [.setMovieDetails (some data)]
    | .httpError _ => [.addToast detailsErrorToast]
    | .networkError => [.addToast detailsErrorToast])

/-- Final state after `fetchMovieDetails(movieId)` runs to completion. -/
def fetchMovieDetails (movieId : Nat) (outcome : FetchOutcome MovieDetails) (s : AppState) : AppState :=
  applyEffs s (fetchMovieDetailsEffects movieId outcome)

/-- Effects of `handleMovieClick(movie)`: select the movie, reset the detail
record, open the dialog, then run `fetchMovieDetails(movie.id)`. -/
def handleMovieClickEffects (movie : Movie) (outcome : FetchOutcome MovieDetails) : List Eff :=
  [.setSelectedMovie (some movie), .setMovieDetails none, .setDialogOpen true] ++
  fetchMovieDetailsEffects movie.id outcome

/-- Final state after `handleMovieClick(movie)` and the detail fetch it
starts both run to completion. -/
def handleMovieClick (movie : Movie) (outcome : FetchOutcome MovieDetails) (s : AppState) : AppState :=
  applyEffs s (handleMovieClickEffects movie outcome)

/-- Models `new Date(s).getFullYear()` for the ISO `YYYY-MM-DD` date strings
the API returns: the year is the leading dash-separated component, read as
a decimal number. -/
def getFullYear (s : String) : Nat :=
  (s.data.takeWhile (fun c => c ≠ '-')).foldl
    (fun n c => 10 * n + (c.toNat - Char.toNat '0')) 0

/-- `formatDate` of `Index.tsx`: `!dateString` is true exactly for the empty
string; otherwise the parsed year is rendered. -/
def formatDate (dateString : String) : String :=
  if dateString = "" then "N/A"
  else toString (getFullYear dateString)

/-- `formatRuntime` of `Index.tsx`.  The source takes `number | undefined`
(the `runtime?` field), modelled as `Option Nat`; `!minutes` is true for
`undefined` and for `0`. -/
def formatRuntime (minutes : Option Nat) : String :=
  match minutes with
  | none => "N/A"
  | some m =>
      if m = 0 then "N/A"
      else toString (m / 60) ++ "h " ++ toString (m % 60) ++ "m"

/-- The six list views the render expression can choose between. -/
inductive View where
  | searchSkeleton
  | searchGrid
  | noResults
  | trendingSkeleton
  | trendingGrid
  | startSearching
  deriving Repr, DecidableEq

/-- The render expression of `MovieSearchApp` selecting the main view:
`searchQuery ? (loading ? skeleton : movies.length > 0 ? grid : empty)
: (trendingLoading ? skeleton : trendingMovies.length > 0 ? grid : empty)`.
A string is truthy exactly when it is non-empty. -/
def renderView (s : AppState) : View :=
  if s.searchQuery ≠ "" then
    if s.loading then View.searchSkeleton
    else if 0 < s.movies.length then View.searchGrid
    else View.noResults
  else
    if s.trendingLoading then View.trendingSkeleton
    else if 0 < s.trendingMovies.length then View.trendingGrid
    else View.startSearching

/-- A timestamped call of the wrapped invoker returned by `debounce`:
`time` in milliseconds, `arg` the argument the invoker was called with. -/
structure TimedCall (α : Type) where
  time : Nat
  arg : α
  deriving Repr, DecidableEq

/-- Executions of the wrapped callback produced by `debounce(func, delay)`
over a chronological call sequence.  Each call runs `clearTimeout` on the
pending timer and schedules `func` with its own arguments `delay` later, so
a pending timer survives only when the next call arrives strictly after the
timer would fire, and the timer of the last call always fires.  Each
execution is recorded as fire time paired with the argument delivered. -/
def debounceFires {α : Type} (delay : Nat) : List (TimedCall α) → List (TimedCall α)
  | [] => []
  | [c] => [⟨c.time + delay, c.arg⟩]
  | c :: c2 :: rest =>
      if c2.time ≤ c.time + delay then debounceFires delay (c2 :: rest)
      else ⟨c.time + delay, c.arg⟩ :: debounceFires delay (c2 :: rest)

/-- Every execution produced over calls no earlier than `t` fires no
earlier than `t + delay`. -/
theorem debounceFires_time_lb {α : Type} (delay t : Nat) :
    ∀ cs : List (TimedCall α), (∀ c ∈ cs, t ≤ c.time) →
      ∀ f ∈ debounceFires delay cs, t + delay ≤ f.time := by
  intro cs
  induction cs with
  | nil => intro _ f hf; simp [debounceFires] at hf
  | cons c rest ih =>
    intro hlb f hf
    cases rest with
    | nil =>
      simp [debounceFires] at hf
      subst hf
      exact Nat.add_le_add_right (hlb c (by simp)) delay
    | cons c2 rest2 =>
      have hlb' : ∀ x ∈ c2 :: rest2, t ≤ x.time := by
        intro x hx; exact hlb x (List.mem_cons_of_mem c hx)
      by_cases h : c2.time ≤ c.time + delay
      · rw [debounceFires, if_pos h] at hf
        exact ih hlb' f hf
      · rw [debounceFires, if_neg h] at hf
        rcases List.mem_cons.mp hf with hf0 | hf1
        · subst hf0
          exact Nat.add_le_add_right (hlb c (by simp)) delay
        · exact ih hlb' f hf1

/-- Consecutive executions produced by the debounced invoker are separated
by more than `delay`: at most one execution per delay window. -/
theorem debounceFires_sep {α : Type} (delay : Nat) :
    ∀ cs : List (TimedCall α), cs.Pairwise (fun a b => a.time ≤ b.time) →
      (debounceFires delay cs).Chain' (fun f g => f.time + delay < g.time) := by
  intro cs
  induction cs with
  | nil => intro _; simp [debounceFires]
  | cons c rest ih =>
    intro hp
    have hp' : rest.Pairwise (fun a b => a.time ≤ b.time) :=
      (List.pairwise_cons.mp hp).2
    cases rest with
    | nil => simp [debounceFires]
    | cons c2 rest2 =>
      by_cases h : c2.time ≤ c.time + delay
      · rw [debounceFires, if_pos h]
        exact ih hp'
      · rw [debounceFires, if_neg h]
        refine List.chain'_cons'.mpr ⟨?_, ih hp'⟩
        intro g hg
        have hg' : g ∈ debounceFires delay (c2 :: rest2) :=
          List.mem_of_mem_head? hg
        have hlb : ∀ x ∈ c2 :: rest2, c2.time ≤ x.time := by
          intro x hx
          rcases List.mem_cons.mp hx with hx0 | hx1
          · subst hx0; exact le_refl _
          · exact (List.pairwise_cons.mp hp').1 x hx1
        have := debounceFires_time_lb delay c2.time (c2 :: rest2) hlb g hg'
        simp only [not_le] at h
        show c.time + delay + delay < g.time
        omega

/-- A concrete movie used to instantiate witnesses. -/
def mkMovie (n : Nat) : Movie :=
  ⟨n, "", "", none, "", [], none, none, none, none⟩

/-- A concrete component state used to instantiate witnesses. -/
def sampleState : AppState :=
  ⟨"", [], [], false, false, none, none, false, []⟩

/-- C1: over any chronologically ordered call sequence the debounced
invoker executes the wrapped callback at most once per delay window
(consecutive executions lie more than `delay` apart); a call arriving
within the pending timer's window cancels that execution and only the
rescheduled one remains; and for calls at t = 0, 100, 200 ms with a 500 ms
delay the callback fires exactly once, at t = 700 ms, with the argument of
the t = 200 ms call. -/
theorem debounce_once_per_window {α : Type} (delay : Nat)
    (cs : List (TimedCall α)) (hchron : cs.Pairwise (fun a b => a.time ≤ b.time))
    (a b c : α) :
    (debounceFires delay cs).Chain' (fun f g => f.time + delay < g.time) ∧
    (∀ (d : Nat) (x y : TimedCall α) (rest : List (TimedCall α)),
      y.time ≤ x.time + d →
      debounceFires d (x :: y :: rest) = debounceFires d (y :: rest)) ∧
    debounceFires 500 [⟨0, a⟩, ⟨100, b⟩, ⟨200, c⟩] = [⟨700, c⟩] := by
  refine ⟨debounceFires_sep delay cs hchron, ?_, ?_⟩
  · intro d x y rest h
    rw [debounceFires, if_pos h]
  · simp [debounceFires]

/-- Witness for C1 at the concrete scenario of the claim. -/
theorem debounce_once_per_window_witness :
    (debounceFires 500 [(⟨0, 1⟩ : TimedCall Nat), ⟨100, 2⟩, ⟨200, 3⟩]).Chain'
        (fun f g => f.time + 500 < g.time) ∧
      debounceFires 500 [(⟨0, 1⟩ : TimedCall Nat), ⟨100, 2⟩, ⟨200, 3⟩] = [⟨700, 3⟩] :=
  ⟨(debounce_once_per_window 500 [⟨0, 1⟩, ⟨100, 2⟩, ⟨200, 3⟩] (by decide) 1 2 3).1,
   (debounce_once_per_window 500 [⟨0, 1⟩, ⟨100, 2⟩, ⟨200, 3⟩] (by decide) 1 2 3).2.2⟩

/-- C2: for every query that is empty after trimming, `searchMovies` sets
the result list to empty and issues no network call. -/
theorem searchMovies_blank_clears (query : String) (outcome : FetchOutcome ListPayload)
    (s : AppState) (hblank : jsTrim query = "") :
    (searchMovies query outcome s).movies = [] ∧
      Eff.netCall ∉ searchMoviesEffects query outcome := by
  simp [searchMovies, searchMoviesEffects, applyEffs, applyEff, hblank]

/-- Witness for C2 on a whitespace-only query. -/
theorem searchMovies_blank_clears_witness :
    (searchMovies "   " (FetchOutcome.networkError) sampleState).movies = [] ∧
      Eff.netCall ∉ searchMoviesEffects "   " (FetchOutcome.networkError) :=
  searchMovies_blank_clears "   " FetchOutcome.networkError sampleState (by decide)

/-- C3: for a non-blank query whose fetch fails (non-2xx status or thrown
error), `searchMovies` empties the result list, records exactly one failure
toast, raises `loading` as its first mutation and lowers it as its last,
and for every outcome (success or failure) the final `loading` is false. -/
theorem searchMovies_failure (query : String) (outcome : FetchOutcome ListPayload)
    (s : AppState) (hq : jsTrim query ≠ "") (hfail : outcome.failed) :
    (searchMovies query outcome s).movies = [] ∧
    (searchMovies query outcome s).toasts = s.toasts ++ [connectionErrorToast] ∧
    (searchMovies query outcome s).loading = false ∧
    (searchMoviesEffects query outcome).head? = some (Eff.setLoading true) ∧
    (searchMoviesEffects query outcome).getLast? = some (Eff.setLoading false) ∧
    (∀ o : FetchOutcome ListPayload, (searchMovies query o s).loading = false) := by
  have hall : ∀ o : FetchOutcome ListPayload, (searchMovies query o s).loading = false := by
    intro o
    rcases o with data | st | _
    · rcases data with _ | rs <;>
        simp [searchMovies, searchMoviesEffects, applyEffs, applyEff, hq]
    · simp [searchMovies, searchMoviesEffects, applyEffs, applyEff, hq]
    · simp [searchMovies, searchMoviesEffects, applyEffs, applyEff, hq]
  rcases outcome with data | st | _
  · exact hfail.elim
  · exact ⟨by simp [searchMovies, searchMoviesEffects, applyEffs, applyEff, hq],
      by simp [searchMovies, searchMoviesEffects, applyEffs, applyEff, hq],
      hall _,
      by simp [searchMoviesEffects, hq],
      by simp [searchMoviesEffects, hq],
      hall⟩
  · exact ⟨by simp [searchMovies, searchMoviesEffects, applyEffs, applyEff, hq],
      by simp [searchMovies, searchMoviesEffects, applyEffs, applyEff, hq],
      hall _,
      by simp [searchMoviesEffects, hq],
      by simp [searchMoviesEffects, hq],
      hall⟩

/-- Witness for C3 on the query "inception" answered with HTTP 500. -/
theorem searchMovies_failure_witness :
    (searchMovies "inception" (FetchOutcome.httpError 500) sampleState).movies = [] ∧
    (searchMovies "inception" (FetchOutcome.httpError 500) sampleState).toasts =
      sampleState.toasts ++ [connectionErrorToast] ∧
    (searchMovies "inception" (FetchOutcome.httpError 500) sampleState).loading = false ∧
    (searchMoviesEffects "inception" (FetchOutcome.httpError 500)).head? =
      some (Eff.setLoading true) ∧
    (searchMoviesEffects "inception" (FetchOutcome.httpError 500)).getLast? =
      some (Eff.setLoading false) ∧
    (∀ o : FetchOutcome ListPayload,
      (searchMovies "inception" o sampleState).loading = false) :=
  searchMovies_failure "inception" (FetchOutcome.httpError 500) sampleState
    (by decide) trivial

/-- C4: `fetchTrendingMovies` stores `results.slice(0, 10)`: the first ten
items when the response holds more than ten, all of them otherwise. -/
theorem fetchTrending_truncates (results : List Movie) (s : AppState) :
    (fetchTrendingMovies (FetchOutcome.ok (some results)) s).trendingMovies =
      results.take 10 ∧
    (10 < results.length →
      (fetchTrendingMovies (FetchOutcome.ok (some results)) s).trendingMovies.length = 10) ∧
    (results.length ≤ 10 →
      (fetchTrendingMovies (FetchOutcome.ok (some results)) s).trendingMovies = results) := by
  have h : (fetchTrendingMovies (FetchOutcome.ok (some results)) s).trendingMovies =
      results.take 10 := by
    simp [fetchTrendingMovies, fetchTrendingMoviesEffects, applyEffs, applyEff]
  refine ⟨h, ?_, ?_⟩
  · intro hlen
    rw [h, List.length_take]
    omega
  · intro hlen
    rw [h]
    exact List.take_of_length_le hlen

/-- Witness for C4 on an eleven-item trending response. -/
theorem fetchTrending_truncates_witness :
    ((fetchTrendingMovies (FetchOutcome.ok (some ((List.range 11).map mkMovie)))
        sampleState).trendingMovies).length = 10 :=
  (fetchTrending_truncates ((List.range 11).map mkMovie) sampleState).2.1 (by simp)

/-- C5: when the trending fetch fails, a failure toast is recorded, the
trending busy flag ends false, and the trending list (empty at mount, when
the fetch runs) is left empty. -/
theorem fetchTrending_failure (outcome : FetchOutcome ListPayload) (s : AppState)
    (hfail : outcome.failed) (hempty : s.trendingMovies = []) :
    (fetchTrendingMovies outcome s).toasts = s.toasts ++ [trendingErrorToast] ∧
    (fetchTrendingMovies outcome s).trendingLoading = false ∧
    (fetchTrendingMovies outcome s).trendingMovies = [] := by
  rcases outcome with data | st | _
  · exact hfail.elim
  · simp [fetchTrendingMovies, fetchTrendingMoviesEffects, applyEffs, applyEff, hempty]
  · simp [fetchTrendingMovies, fetchTrendingMoviesEffects, applyEffs, applyEff, hempty]

/-- Witness for C5 on a network error at the mount state. -/
theorem fetchTrending_failure_witness :
    (fetchTrendingMovies FetchOutcome.networkError sampleState).toasts =
      sampleState.toasts ++ [trendingErrorToast] ∧
    (fetchTrendingMovies FetchOutcome.networkError sampleState).trendingLoading = false ∧
    (fetchTrendingMovies FetchOutcome.networkError sampleState).trendingMovies = [] :=
  fetchTrending_failure FetchOutcome.networkError sampleState trivial rfl

/-- C6: when the detail fetch fails, the only state change is the recorded
failure toast — the detail record stays unset and the selected item stays
set; after `handleMovieClick` followed by a failing detail fetch, the
detail record is `none` (skeleton state) and the clicked movie is still
selected. -/
theorem fetchDetails_failure_frame (movieId : Nat) (outcome : FetchOutcome MovieDetails)
    (s : AppState) (m : Movie) (hfail : outcome.failed) :
    fetchMovieDetails movieId outcome s =
      { s with toasts := s.toasts ++ [detailsErrorToast] } ∧
    (handleMovieClick m outcome s).movieDetails = none ∧
    (handleMovieClick m outcome s).selectedMovie = some m := by
  rcases outcome with data | st | _
  · exact hfail.elim
  · exact ⟨rfl, rfl, rfl⟩
  · exact ⟨rfl, rfl, rfl⟩

/-- Witness for C6 on a clicked movie whose detail fetch hits HTTP 404. -/
theorem fetchDetails_failure_frame_witness :
    fetchMovieDetails 7 (FetchOutcome.httpError 404) sampleState =
      { sampleState with toasts := sampleState.toasts ++ [detailsErrorToast] } ∧
    (handleMovieClick (mkMovie 7) (FetchOutcome.httpError 404) sampleState).movieDetails =
      none ∧
    (handleMovieClick (mkMovie 7) (FetchOutcome.httpError 404) sampleState).selectedMovie =
      some (mkMovie 7) :=
  fetchDetails_failure_frame 7 (FetchOutcome.httpError 404) sampleState (mkMovie 7) trivial

/-- C7: the main view is a pure function of the query string, the two busy
flags and the two lists, and follows the six-row decision table of the
spec. -/
theorem render_decision_table (s : AppState) :
    (s.searchQuery = "" → s.trendingLoading = true →
      renderView s = View.trendingSkeleton) ∧
    (s.searchQuery = "" → s.trendingLoading = false → 0 < s.trendingMovies.length →
      renderView s = View.trendingGrid) ∧
    (s.searchQuery = "" → s.trendingLoading = false → s.trendingMovies = [] →
      renderView s = View.startSearching) ∧
    (s.searchQuery ≠ "" → s.loading = true →
      renderView s = View.searchSkeleton) ∧
    (s.searchQuery ≠ "" → s.loading = false → 0 < s.movies.length →
      renderView s = View.searchGrid) ∧
    (s.searchQuery ≠ "" → s.loading = false → s.movies = [] →
      renderView s = View.noResults) ∧
    (∀ s' : AppState, s'.searchQuery = s.searchQuery → s'.loading = s.loading →
      s'.trendingLoading = s.trendingLoading → s'.movies = s.movies →
      s'.trendingMovies = s.trendingMovies → renderView s' = renderView s) := by
  refine ⟨?_, ?_, ?_, ?_, ?_, ?_, ?_⟩ <;> intros <;> simp_all [renderView]

/-- Witness for C7 on a mount-time state with the trending fetch busy. -/
theorem render_decision_table_witness :
    renderView ⟨"", [], [], false, true, none, none, false, []⟩ =
      View.trendingSkeleton :=
  (render_decision_table ⟨"", [], [], false, true, none, none, false, []⟩).1 rfl rfl

/-- C8: `formatDate` renders "1999-03-04" as "1999" and the empty string as
"N/A". -/
theorem formatDate_examples :
    formatDate "1999-03-04" = "1999" ∧ formatDate "" = "N/A" := by
  constructor <;> rfl

/-- C9: `formatRuntime` renders 125 minutes as "2h 5m" and renders 0 or an
absent runtime as "N/A". -/
theorem formatRuntime_examples :
    formatRuntime (some 125) = "2h 5m" ∧ formatRuntime (some 0) = "N/A" ∧
      formatRuntime none = "N/A" :=
  ⟨rfl, rfl, rfl⟩

/-- C10: on a blank query `searchMovies` never touches the busy flag: no
`setLoading` effect is emitted on the early-return path, so `loading` is
left exactly as it was. -/
theorem searchMovies_blank_loading_frame (query : String)
    (outcome : FetchOutcome ListPayload) (s : AppState) (hblank : jsTrim query = "") :
    (searchMovies query outcome s).loading = s.loading ∧
      ∀ b : Bool, Eff.setLoading b ∉ searchMoviesEffects query outcome := by
  simp [searchMovies, searchMoviesEffects, applyEffs, applyEff, hblank]

/-- Witness for C10 on a tab-and-space query. -/
theorem searchMovies_blank_loading_frame_witness :
    (searchMovies " \t " (FetchOutcome.ok (some [mkMovie 1])) sampleState).loading =
      sampleState.loading ∧
      ∀ b : Bool, Eff.setLoading b ∉ searchMoviesEffects " \t " (FetchOutcome.ok (some [mkMovie 1])) :=
  searchMovies_blank_loading_frame " \t " (FetchOutcome.ok (some [mkMovie 1]))
    sampleState (by decide)
